import Mathlib

/-!
Verification of the Dev-Vault virtual filesystem layer (`DevVaultFS`)
of the engenai-vscode extension, as a shallow embedding in Lean 4.

The embedding follows `src/fs/DevVaultFS.ts`. Each asynchronous method is
modelled as a pure state transformer over `FSState`; remote calls made by
the method are captured as an `ApiOutcome` parameter (the value the remote
client call would resolve or reject with) and logged as `RemoteReq` values
so that theorems can speak about which calls were made and with which
arguments. Bytes (`Uint8Array` contents produced by `TextEncoder`) are
modelled by the string they decode to (the encoder is injective, and no
method inspects individual bytes), and `Date.now()` is an explicit `now`
parameter.
-/

namespace DevVault

/-- A VS Code `Uri` restricted to the fields the provider reads:
scheme, authority and path. -/
structure Uri where
  scheme : String
  authority : String
  path : String
deriving DecidableEq, Repr

/-- `uri.toString()` for the simple uris used by the provider
(no query/fragment). -/
def Uri.toKey (u : Uri) : String :=
  u.scheme ++ "://" ++ u.authority ++ u.path

/-- `uri.with({path})`. -/
def Uri.withPath (u : Uri) (p : String) : Uri :=
  { u with path := p }

/-- `vscode.FileType` (the provider only produces `File` and `Directory`). -/
inductive FileType where
  | file
  | directory
deriving DecidableEq, Repr

/-- `vscode.FilePermission` — only `Readonly` exists. -/
inductive FilePermission where
  | readonly
deriving DecidableEq, Repr

/-- `vscode.FileStat` as produced by the provider. -/
structure FileStat where
  type : FileType
  ctime : Nat
  mtime : Nat
  size : Nat
  permissions : Option FilePermission
deriving DecidableEq, Repr

/-- `vscode.FileChangeType`. -/
inductive FileChangeType where
  | created
  | changed
  | deleted
deriving DecidableEq, Repr

/-- `vscode.FileChangeEvent`. -/
structure FileChangeEvent where
  type : FileChangeType
  uri : Uri
deriving DecidableEq, Repr

/-- The errors that can escape a façade method.  The first four are the
`vscode.FileSystemError` constructors the provider uses; the `raw*`
constructors stand for an exception leaving a method without being mapped
(they can only arise inside `_handleConflict`'s second write). -/
inductive ThrownError where
  | fileNotFound (uri : Uri)
  | fileExists (uri : Uri)
  | unavailableUri (uri : Uri)
  | unavailableMsg (msg : String)
  | rawApiError (status : Nat)
  | rawOtherError
deriving DecidableEq, Repr

/-- Outcome of one remote-client call: the resolved value, an `ApiError`
with an HTTP status, or any other (network/transport) failure. -/
inductive ApiOutcome (α : Type) where
  | ok (v : α)
  | apiError (status : Nat)
  | otherError
deriving DecidableEq, Repr

/-- `true` when the outcome is a rejection of any kind. -/
def ApiOutcome.isFailure : ApiOutcome α → Bool
  | .ok _ => false
  | .apiError _ => true
  | .otherError => true

/-- A remote request issued by a façade method, with its arguments. -/
inductive RemoteReq where
  | statReq (projectId vaultPath : String)
  | listReq (projectId vaultPath : String)
  | readReq (projectId vaultPath : String)
  | writeReq (projectId vaultPath content : String) (ifMatch : Option String)
  | deleteReq (projectId vaultPath : String)
  | renameReq (projectId fromPath toPath : String)
  | mkdirReq (projectId vaultPath : String)
deriving DecidableEq, Repr

/-- Response shape of `client.vaultStat`. -/
structure StatResponse where
  is_directory : Bool
  created_at_ms : Nat
  modified_at_ms : Nat
  size_bytes : Nat
deriving DecidableEq, Repr

/-- One entry of a `client.vaultList` response. -/
structure ListEntry where
  name : String
  is_directory : Bool
deriving DecidableEq, Repr

/-- Response shape of `client.vaultRead`; `etag` is optional in the API
type and guarded by a truthiness check in the source. -/
structure ReadResult where
  content : String
  etag : Option String
deriving DecidableEq, Repr

/-- Response shape of `client.vaultWrite`. -/
structure WriteResult where
  etag : String
deriving DecidableEq, Repr

/-- Response shape of `client.vaultRename`; the source guards
`result.etag` with a truthiness check, so it is optional here. -/
structure RenameResult where
  etag : Option String
deriving DecidableEq, Repr

/-- JS truthiness of an optional string: `undefined` and `""` are falsy. -/
def truthy : Option String → Bool
  | some s => s ≠ ""
  | none => false

/-- A cache (`Map<string, V>`) modelled as a lookup function. -/
def Cache (V : Type) : Type := String → Option V

/-- `map.set(k, v)`. -/
def Cache.set (c : Cache V) (k : String) (v : V) : Cache V :=
  fun x => if x = k then some v else c x

/-- `map.delete(k)`. -/
def Cache.del (c : Cache V) (k : String) : Cache V :=
  fun x => if x = k then none else c x

/-- `map.clear()` / a freshly constructed map. -/
def Cache.empty : Cache V := fun _ => none

/-- Stat-cache entry: `{ stat, expires }`. -/
structure StatEntry where
  stat : FileStat
  expires : Nat
deriving DecidableEq, Repr

/-- Directory-cache entry: `{ entries, expires }`. -/
structure DirEntry where
  entries : List (String × FileType)
  expires : Nat
deriving DecidableEq, Repr

/-- Content-cache entry: `{ content, mtime }` — no TTL field. -/
structure ContentEntry where
  content : String
  mtime : Nat
deriving DecidableEq, Repr

/-- The mutable state of a `DevVaultFS` instance: the three caches, the
ETag cache, the debounce buffer/timer, the SSE connection flag and the
current project binding.  `delivered` records the batches the event
emitter has fired, so that delivery order and batching are observable. -/
structure FSState where
  statCache : Cache StatEntry
  dirCache : Cache DirEntry
  fileCache : Cache ContentEntry
  etagCache : Cache String
  bufferedEvents : List FileChangeEvent
  timerPending : Bool
  sseConnected : Bool
  currentProjectId : Option String
  delivered : List (List FileChangeEvent)

/-- `STAT_TTL` (ms). -/
def STAT_TTL : Nat := 30000

/-- `DIR_TTL` (ms). -/
def DIR_TTL : Nat := 30000

/-- `as` begins with `pat` (on character lists, so that it evaluates by
structural recursion). -/
def listStartsWith : List Char → List Char → Bool
  | _, [] => true
  | [], _ :: _ => false
  | a :: as, b :: bs => a = b && listStartsWith as bs

/-- Replace the first occurrence of the non-empty pattern `pat` in the
character list, if any. -/
def replaceFirstAux (pat repl : List Char) : List Char → List Char
  | [] => []
  | c :: cs =>
      if listStartsWith (c :: cs) pat then repl ++ (c :: cs).drop pat.length
      else c :: replaceFirstAux pat repl cs

/-- `string.replace(pat, repl)` with a plain-string pattern replaces only
the first occurrence (an empty pattern matches at the front, as in JS). -/
def replaceFirst (s pat repl : String) : String :=
  if pat = "" then repl ++ s
  else String.mk (replaceFirstAux pat.data repl.data s.data)

/-- Result of `parseUri`. -/
structure ParsedUri where
  projectId : String
  vaultPath : String
deriving DecidableEq, Repr

/-- `parseUri`: `projectId = authority.replace("project-", "")`;
`vaultPath = path.replace(/^\x7bslash\x7dvault/, "") || "/"` (the regex is
anchored, so it strips a leading `/vault`). -/
def parseUri (u : Uri) : ParsedUri :=
  let projectId := replaceFirst u.authority "project-" ""
  let stripped :=
    if listStartsWith u.path.data "/vault".data then
      String.mk (u.path.data.drop 6)
    else u.path
  { projectId, vaultPath := if stripped = "" then "/" else stripped }

/-- `path.substring(0, path.lastIndexOf("/"))`: the characters strictly
before the last slash; `""` when the path has no slash (JS
`substring(0, -1)` is empty as well). -/
def beforeLastSlash (p : String) : String :=
  match p.toList.reverse.dropWhile (fun c => c ≠ '/') with
  | [] => ""
  | _ :: rest => String.mk rest.reverse

/-- The parent-directory path used by `invalidateCache`:
`uri.path.substring(0, uri.path.lastIndexOf("/")) || "/"`. -/
def parentPath (p : String) : String :=
  let pre := beforeLastSlash p
  if pre = "" then "/" else pre

/-- The parent-directory uri used by `invalidateCache`. -/
def parentUri (u : Uri) : Uri :=
  u.withPath (parentPath u.path)

/-- `invalidateCache(uri)`: delete the stat entry and content entry of the
uri itself, and the directory-listing entry of its parent. -/
def invalidateCache (uri : Uri) (s : FSState) : FSState :=
  let key := uri.toKey
  { s with
    statCache := s.statCache.del key
    fileCache := s.fileCache.del key
    dirCache := s.dirCache.del (parentUri uri).toKey }

/-- `clearAllCaches()`. -/
def clearAllCaches (s : FSState) : FSState :=
  { s with
    statCache := Cache.empty
    dirCache := Cache.empty
    fileCache := Cache.empty
    etagCache := Cache.empty }

/-- `_fireSoon(...events)`: append to the buffer and (re)arm the 5 ms
timer.  An already-armed timer is cleared and re-armed, which leaves the
buffer untouched. -/
def fireSoon (events : List FileChangeEvent) (s : FSState) : FSState :=
  { s with
    bufferedEvents := s.bufferedEvents ++ events
    timerPending := true }

/-- The armed debounce timer elapsing: fire the whole buffer as one batch
and clear it.  Without an armed timer nothing happens. -/
def flushEvents (s : FSState) : FSState :=
  if s.timerPending then
    { s with
      delivered := s.delivered ++ [s.bufferedEvents]
      bufferedEvents := []
      timerPending := false }
  else s

/-- Result of a façade method: the returned/thrown value, the state after
the call, and the remote requests issued during the call, in order. -/
def OpResult (α : Type) : Type :=
  Except ThrownError α × FSState × List RemoteReq

/-- The non-cached tail of `stat`: the root special case, then the remote
call, mapping every rejection to `FileNotFound`. -/
def statFetch (now : Nat) (remote : ApiOutcome StatResponse) (uri : Uri)
    (s : FSState) : OpResult FileStat :=
  let key := uri.toKey
  let p := parseUri uri
  if p.vaultPath = "/" ∨ p.vaultPath = "" then
    let rootStat : FileStat :=
      { type := .directory, ctime := 0, mtime := now, size := 0,
        permissions := none }
    (.ok rootStat,
      { s with statCache := s.statCache.set key ⟨rootStat, now + STAT_TTL⟩ },
      [])
  else
    match remote with
    | .ok resp =>
        let st : FileStat :=
          { type := if resp.is_directory then .directory else .file
            ctime := resp.created_at_ms
            mtime := resp.modified_at_ms
            size := resp.size_bytes
            permissions := some .readonly }
        (.ok st,
          { s with statCache := s.statCache.set key ⟨st, now + STAT_TTL⟩ },
          [.statReq p.projectId p.vaultPath])
    | _ =>
        (.error (.fileNotFound uri), s, [.statReq p.projectId p.vaultPath])

/-- `stat(uri)`: serve from the stat cache while unexpired, otherwise
fetch. -/
def stat (now : Nat) (remote : ApiOutcome StatResponse) (uri : Uri)
    (s : FSState) : OpResult FileStat :=
  match s.statCache uri.toKey with
  | some c =>
      if now < c.expires then (.ok c.stat, s, [])
      else statFetch now remote uri s
  | none => statFetch now remote uri s

/-- The non-cached tail of `readDirectory`. -/
def readDirectoryFetch (now : Nat) (remote : ApiOutcome (List ListEntry))
    (uri : Uri) (s : FSState) : OpResult (List (String × FileType)) :=
  let key := uri.toKey
  let p := parseUri uri
  match remote with
  | .ok entries =>
      let result := entries.map fun e =>
        (e.name, if e.is_directory then FileType.directory else FileType.file)
      (.ok result,
        { s with dirCache := s.dirCache.set key ⟨result, now + DIR_TTL⟩ },
        [.listReq p.projectId p.vaultPath])
  | _ =>
      (.error (.fileNotFound uri), s, [.listReq p.projectId p.vaultPath])

/-- `readDirectory(uri)`: serve from the directory cache while unexpired,
otherwise fetch and cache. -/
def readDirectory (now : Nat) (remote : ApiOutcome (List ListEntry))
    (uri : Uri) (s : FSState) : OpResult (List (String × FileType)) :=
  match s.dirCache uri.toKey with
  | some c =>
      if now < c.expires then (.ok c.entries, s, [])
      else readDirectoryFetch now remote uri s
  | none => readDirectoryFetch now remote uri s

/-- `readFile(uri)`: return the cached content when a content entry exists
whose `mtime` equals the current stat-cache entry's `mtime`; otherwise
fetch from the remote vault, record the ETag (when truthy) and cache the
content keyed by the cached stat's `mtime` (when a stat entry exists). -/
def readFile (remote : ApiOutcome ReadResult) (uri : Uri) (s : FSState) :
    OpResult String :=
  let key := uri.toKey
  let hit : Option String :=
    match s.fileCache key with
    | some cc =>
        match s.statCache key with
        | some st => if st.stat.mtime = cc.mtime then some cc.content else none
        | none => none
    | none => none
  match hit with
  | some content => (.ok content, s, [])
  | none =>
      let p := parseUri uri
      match remote with
      | .ok r =>
          let s1 := if truthy r.etag then
              { s with etagCache := s.etagCache.set key (r.etag.getD "") }
            else s
          let s2 :=
            match s1.statCache key with
            | some st =>
                { s1 with
                  fileCache := s1.fileCache.set key ⟨r.content, st.stat.mtime⟩ }
            | none => s1
          (.ok r.content, s2, [.readReq p.projectId p.vaultPath])
      | _ =>
          (.error (.fileNotFound uri), s, [.readReq p.projectId p.vaultPath])

/-- The outcome of the modal conflict prompt: the user picked
"Upload Anyway", picked "Discard Local Changes", or dismissed the dialog
(which the source's `else` branch treats like discarding). -/
inductive UserChoice where
  | uploadAnyway
  | discardLocal
  | dismissed
deriving DecidableEq, Repr

/-- `_handleConflict(uri, projectId, vaultPath, localContent)`:
"Upload Anyway" resends the write with the wildcard precondition `*`;
any other choice evicts the ETag and caches, emits a Changed event and
throws `Unavailable`, so the original write still fails.  `remote2` is the
outcome of the unconditional rewrite (only consulted for "Upload Anyway");
a rejection there escapes unmapped, since `_handleConflict` has no
try/catch around it. -/
def handleConflict (remote2 : ApiOutcome WriteResult) (choice : UserChoice)
    (uri : Uri) (projectId vaultPath localContent : String) (s : FSState) :
    OpResult Unit :=
  match choice with
  | .uploadAnyway =>
      match remote2 with
      | .ok result =>
          let s1 := { s with etagCache := s.etagCache.set uri.toKey result.etag }
          let s2 := invalidateCache uri s1
          let s3 := fireSoon [⟨.changed, uri⟩] s2
          (.ok (), s3, [.writeReq projectId vaultPath localContent (some "*")])
      | .apiError st =>
          (.error (.rawApiError st), s,
            [.writeReq projectId vaultPath localContent (some "*")])
      | .otherError =>
          (.error .rawOtherError, s,
            [.writeReq projectId vaultPath localContent (some "*")])
  | _ =>
      let s1 := { s with etagCache := s.etagCache.del uri.toKey }
      let s2 := invalidateCache uri s1
      let s3 := fireSoon [⟨.changed, uri⟩] s2
      (.error (.unavailableMsg
        "Local changes discarded. The file will reload from the vault."),
        s3, [])

/-- `writeFile(uri, content, options)`: conditional write with the cached
ETag as `If-Match` (absent ETag → unconditional write); 409 hands off to
`_handleConflict`, 404 maps to `FileNotFound`, anything else to
`Unavailable`.  On success: store the new ETag, invalidate, emit Created
(when `options.create`) or Changed. -/
def writeFile (remote1 remote2 : ApiOutcome WriteResult) (choice : UserChoice)
    (uri : Uri) (content : String) (optCreate : Bool) (s : FSState) :
    OpResult Unit :=
  let p := parseUri uri
  let key := uri.toKey
  let ifMatch := s.etagCache key
  let req := RemoteReq.writeReq p.projectId p.vaultPath content ifMatch
  match remote1 with
  | .ok result =>
      let s1 := { s with etagCache := s.etagCache.set key result.etag }
      let s2 := invalidateCache uri s1
      let s3 := fireSoon
        [⟨if optCreate then .created else .changed, uri⟩] s2
      (.ok (), s3, [req])
  | .apiError st =>
      if st = 409 then
        let inner := handleConflict remote2 choice uri p.projectId p.vaultPath
          content s
        (inner.1, inner.2.1, req :: inner.2.2)
      else if st = 404 then
        (.error (.fileNotFound uri), s, [req])
      else
        (.error (.unavailableUri uri), s, [req])
  | .otherError =>
      (.error (.unavailableUri uri), s, [req])

/-- `delete(uri, options)`: remote delete; 404 → `FileNotFound`, other
failures → `Unavailable`; on success drop the ETag, invalidate and emit
Deleted. -/
def deleteFile (remote : ApiOutcome Unit) (uri : Uri) (s : FSState) :
    OpResult Unit :=
  let p := parseUri uri
  let req := RemoteReq.deleteReq p.projectId p.vaultPath
  match remote with
  | .ok _ =>
      let s1 := { s with etagCache := s.etagCache.del uri.toKey }
      let s2 := invalidateCache uri s1
      let s3 := fireSoon [⟨.deleted, uri⟩] s2
      (.ok (), s3, [req])
  | .apiError st =>
      if st = 404 then (.error (.fileNotFound uri), s, [req])
      else (.error (.unavailableUri uri), s, [req])
  | .otherError => (.error (.unavailableUri uri), s, [req])

/-- `rename(oldUri, newUri, options)`: remote rename; on success the
returned ETag (when truthy) is stored for the new path, the old path's
ETag is dropped, both paths are invalidated and a Deleted(old) plus
Created(new) pair is buffered in one `_fireSoon` call.  404 →
`FileNotFound(oldUri)`, 409 → `FileExists(newUri)`, anything else →
`Unavailable(oldUri)`. -/
def rename (remote : ApiOutcome RenameResult) (oldUri newUri : Uri)
    (s : FSState) : OpResult Unit :=
  let pOld := parseUri oldUri
  let pNew := parseUri newUri
  let req := RemoteReq.renameReq pOld.projectId pOld.vaultPath pNew.vaultPath
  match remote with
  | .ok result =>
      let s1 := if truthy result.etag then
          { s with
            etagCache := s.etagCache.set newUri.toKey (result.etag.getD "") }
        else s
      let s2 := { s1 with etagCache := s1.etagCache.del oldUri.toKey }
      let s3 := invalidateCache oldUri s2
      let s4 := invalidateCache newUri s3
      let s5 := fireSoon [⟨.deleted, oldUri⟩, ⟨.created, newUri⟩] s4
      (.ok (), s5, [req])
  | .apiError st =>
      if st = 404 then (.error (.fileNotFound oldUri), s, [req])
      else if st = 409 then (.error (.fileExists newUri), s, [req])
      else (.error (.unavailableUri oldUri), s, [req])
  | .otherError => (.error (.unavailableUri oldUri), s, [req])

/-- `createDirectory(uri)`: remote mkdir; any failure → `Unavailable`;
success invalidates and emits Created. -/
def createDirectory (remote : ApiOutcome Unit) (uri : Uri) (s : FSState) :
    OpResult Unit :=
  let p := parseUri uri
  let req := RemoteReq.mkdirReq p.projectId p.vaultPath
  match remote with
  | .ok _ =>
      let s1 := invalidateCache uri s
      let s2 := fireSoon [⟨.created, uri⟩] s1
      (.ok (), s2, [req])
  | _ => (.error (.unavailableUri uri), s, [req])

/-- `mountProject(projectId, name)`: bind the project and start the SSE
activity stream when authenticated (the workspace-folder side effect lives
in the host and is outside the model). -/
def mountProject (projectId : String) (authenticated : Bool) (s : FSState) :
    FSState :=
  let s1 := { s with currentProjectId := some projectId }
  if authenticated then { s1 with sseConnected := true } else s1

/-- `unmountProject()`: disconnect the SSE stream, clear all four caches
and drop the project binding (the workspace-folder removal lives in the
host). -/
def unmountProject (s : FSState) : FSState :=
  let s1 := { s with sseConnected := false }
  let s2 := clearAllCaches s1
  { s2 with currentProjectId := none }

/-- `handleRemoteFileChange(projectId, data)`: rebuild the uri, invalidate
its caches and buffer the mapped change event. -/
def handleRemoteFileChange (projectId path action : String) (s : FSState) :
    FSState :=
  let uri : Uri :=
    { scheme := "engenai", authority := "project-" ++ projectId,
      path := "/vault" ++ path }
  let s1 := invalidateCache uri s
  let ct : FileChangeType :=
    if action = "created" then .created
    else if action = "deleted" then .deleted
    else .changed
  fireSoon [⟨ct, uri⟩] s1

/-- A change notification arriving from the server: it reaches
`handleRemoteFileChange` only while the SSE connection is open; after
`disconnect()` (abort) the message callback is never invoked. -/
def deliverNotification (projectId path action : String) (s : FSState) :
    FSState :=
  if s.sseConnected then handleRemoteFileChange projectId path action s
  else s

/-- One HTTP response to a vault write request: the status code and the
`etag` of the parsed body (read only on a 2xx). -/
structure HttpResponse where
  status : Nat
  etag : String
deriving DecidableEq, Repr

/-- `EnGenAIClient.vaultWrite`: the `If-Match` header is attached to the
request exactly when the `ifMatch` argument was passed
(`if (ifMatch !== undefined)`); the internal `fetch` helper then maps the
response status — 401 → `AuthError` and 402 → `CreditsError` (neither is
an `ApiError`, so the façade's `instanceof ApiError` tests fail on them),
any other non-2xx → `ApiError` carrying the status, and a 2xx resolves
with the parsed `{etag}` body.  `server` is the backend answering the
request as a function of the request's `If-Match` header. -/
def vaultWrite (server : Option String → HttpResponse)
    (ifMatch : Option String) : ApiOutcome WriteResult :=
  let ifMatchHeader : Option String := ifMatch
  let res := server ifMatchHeader
  if res.status = 401 then .otherError
  else if res.status = 402 then .otherError
  else if 200 ≤ res.status ∧ res.status < 300 then .ok ⟨res.etag⟩
  else .apiError res.status

/-- Modelled from the spec: the remote vault *server* — the backend at
`/api/v1/projects/.../vault/write`, which is not part of this repository.
Spec §6: the write `fails with Conflict (HTTP 409 equivalent) if ifMatch
is present and stale, NotFound if the path's parent doesn't exist`; with
no `If-Match` header the write is unconditional and accepted; §4.3's
force-overwrite uses the wildcard `*` precondition, which bypasses the
version check. -/
def vaultServerModel (remoteEtag : Option String) (parentExists : Bool)
    (newEtag : String) : Option String → HttpResponse :=
  fun ifMatchHeader =>
    if parentExists then
      match ifMatchHeader with
      | some m =>
          if m = "*" ∨ some m = remoteEtag then ⟨200, newEtag⟩
          else ⟨409, ""⟩
      | none => ⟨200, newEtag⟩
    else ⟨404, ""⟩

/-- `writeFile` run end-to-end through the source's `vaultWrite` against
the spec-modelled server: the first remote call's outcome is determined
by the `If-Match` value the façade actually sends (the cached ETag for
the path). -/
def writeFileModel (remoteEtag : Option String) (parentExists : Bool)
    (newEtag : String) (remote2 : ApiOutcome WriteResult)
    (choice : UserChoice) (uri : Uri) (content : String) (optCreate : Bool)
    (s : FSState) : OpResult Unit :=
  writeFile
    (vaultWrite (vaultServerModel remoteEtag parentExists newEtag)
      (s.etagCache uri.toKey))
    remote2 choice uri content optCreate s

/-- The content cache holds a currently-valid entry for `key`: an entry
exists and its `mtime` equals the current stat-cache entry's `mtime`.
Note the condition involves no clock and no TTL. -/
def contentCacheFresh (s : FSState) (key : String) : Prop :=
  ∃ cc st, s.fileCache key = some cc ∧ s.statCache key = some st ∧
    st.stat.mtime = cc.mtime

/-- `schedule` iterated over a list of events, in order. -/
def scheduleAll (es : List FileChangeEvent) (s : FSState) : FSState :=
  es.foldl (fun st e => fireSoon [e] st) s

/-- A state with empty caches, an empty buffer and no connection. -/
def emptyState : FSState :=
  { statCache := Cache.empty
    dirCache := Cache.empty
    fileCache := Cache.empty
    etagCache := Cache.empty
    bufferedEvents := []
    timerPending := false
    sseConnected := false
    currentProjectId := none
    delivered := [] }

/-- Concrete uri `/a/b.txt` inside project `p1`. -/
def uA : Uri := ⟨"engenai", "project-p1", "/vault/a/b.txt"⟩

/-- Concrete sibling uri `/a/c.txt`. -/
def uC : Uri := ⟨"engenai", "project-p1", "/vault/a/c.txt"⟩

/-- Concrete uri `/a.txt`. -/
def uOld : Uri := ⟨"engenai", "project-p1", "/vault/a.txt"⟩

/-- Concrete uri `/b.txt`. -/
def uNew : Uri := ⟨"engenai", "project-p1", "/vault/b.txt"⟩

/-- Concrete root uri of the mount. -/
def uRoot : Uri := ⟨"engenai", "project-p1", "/vault"⟩

/-- A concrete file stat with `mtime = 5`. -/
def stA : FileStat :=
  { type := .file, ctime := 1, mtime := 5, size := 3,
    permissions := some .readonly }

/-- A state caching a stat (mtime 5) and matching content for `uA`,
plus a stat entry for the sibling `uC`. -/
def sFresh : FSState :=
  { emptyState with
    statCache := (Cache.empty.set uA.toKey ⟨stA, 100⟩).set uC.toKey ⟨stA, 100⟩
    fileCache := Cache.empty.set uA.toKey ⟨"hello", 5⟩
    dirCache := Cache.empty.set (parentUri uA).toKey ⟨[("b.txt", .file)], 100⟩ }

/-- C1: `readFile` serves cached bytes exactly when a content entry exists
whose stored `mtime` equals the current stat-cache entry's `mtime` (no
remote request is made then, and the state is untouched); with no stat
entry or differing mtimes the bytes are re-fetched from the remote vault.
The freshness condition `contentCacheFresh` mentions no clock and the
content entry carries no TTL, so validity is decided by the mtime match
alone. -/
theorem readFile_content_validity (remote : ApiOutcome ReadResult)
    (uri : Uri) (s : FSState) :
    ((readFile remote uri s).2.2 = [] ↔ contentCacheFresh s uri.toKey) ∧
    (∀ cc st, s.fileCache uri.toKey = some cc →
      s.statCache uri.toKey = some st → st.stat.mtime = cc.mtime →
      readFile remote uri s = (.ok cc.content, s, [])) := by
  constructor
  · unfold readFile contentCacheFresh
    rcases hf : s.fileCache uri.toKey with _ | cc
    · cases remote <;> simp [hf]
    · rcases hs : s.statCache uri.toKey with _ | st
      · cases remote <;> simp [hf, hs]
      · by_cases hm : st.stat.mtime = cc.mtime
        · simp [hf, hs, hm]
        · cases remote <;> simp [hf, hs, hm]
  · intro cc st hf hs hm
    unfold readFile
    simp [hf, hs, hm]

/-- Witness for C1 at a concrete state: cached stat mtime 5 matches the
cached content's mtime 5, so the cached bytes are served unchanged. -/
theorem readFile_content_validity_witness :
    readFile (.ok ⟨"remote", some "e1"⟩) uA sFresh =
      (.ok "hello", sFresh, []) := by
  have h := (readFile_content_validity (.ok ⟨"remote", some "e1"⟩) uA sFresh).2
  exact h ⟨"hello", 5⟩ ⟨stA, 100⟩ (by decide) (by decide) rfl

/-- C2: `invalidateCache(p)` removes exactly p's stat entry, p's content
entry and the parent directory's listing entry; every other key's stat,
content and listing entries — siblings and children included — and the
whole ETag cache, buffer and connection state are unchanged. -/
theorem invalidateCache_frame (uri : Uri) (s : FSState) :
    (invalidateCache uri s).statCache uri.toKey = none ∧
    (invalidateCache uri s).fileCache uri.toKey = none ∧
    (invalidateCache uri s).dirCache (parentUri uri).toKey = none ∧
    (∀ k, k ≠ uri.toKey →
      (invalidateCache uri s).statCache k = s.statCache k) ∧
    (∀ k, k ≠ uri.toKey →
      (invalidateCache uri s).fileCache k = s.fileCache k) ∧
    (∀ k, k ≠ (parentUri uri).toKey →
      (invalidateCache uri s).dirCache k = s.dirCache k) ∧
    (invalidateCache uri s).etagCache = s.etagCache ∧
    (invalidateCache uri s).bufferedEvents = s.bufferedEvents ∧
    (invalidateCache uri s).sseConnected = s.sseConnected := by
  refine ⟨?_, ?_, ?_, ?_, ?_, ?_, rfl, rfl, rfl⟩ <;>
    simp [invalidateCache, Cache.del]
  · intro k hk; simp [hk]
  · intro k hk; simp [hk]
  · intro k hk; simp [hk]

/-- Witness for C2, the spec's own example: invalidating `/a/b.txt` evicts
its stat and content entries and `/a`'s listing, but leaves the sibling
`/a/c.txt`'s stat entry intact. -/
theorem invalidateCache_frame_witness :
    (invalidateCache uA sFresh).statCache uA.toKey = none ∧
    (invalidateCache uA sFresh).fileCache uA.toKey = none ∧
    (invalidateCache uA sFresh).dirCache (parentUri uA).toKey = none ∧
    (invalidateCache uA sFresh).statCache uC.toKey = some ⟨stA, 100⟩ := by
  have h := invalidateCache_frame uA sFresh
  refine ⟨h.1, h.2.1, h.2.2.1, ?_⟩
  rw [h.2.2.2.1 uC.toKey (by decide)]
  decide

/-- C3: a `writeFile` rejected with a 409 version conflict where the user
chooses "Discard Local Changes" drops the path's version token, clears its
stat and content entries and the parent listing, buffers a Changed event
and still completes as a failure (`Unavailable`), never as a success. -/
theorem writeFile_conflict_discard (remote2 : ApiOutcome WriteResult)
    (uri : Uri) (content : String) (c : Bool) (s : FSState) :
    (writeFile (.apiError 409) remote2 .discardLocal uri content c s).1 =
      .error (.unavailableMsg
        "Local changes discarded. The file will reload from the vault.") ∧
    ((writeFile (.apiError 409) remote2 .discardLocal uri content c
        s).2.1).etagCache uri.toKey = none ∧
    ((writeFile (.apiError 409) remote2 .discardLocal uri content c
        s).2.1).statCache uri.toKey = none ∧
    ((writeFile (.apiError 409) remote2 .discardLocal uri content c
        s).2.1).fileCache uri.toKey = none ∧
    ((writeFile (.apiError 409) remote2 .discardLocal uri content c
        s).2.1).dirCache (parentUri uri).toKey = none ∧
    ((writeFile (.apiError 409) remote2 .discardLocal uri content c
        s).2.1).bufferedEvents =
      s.bufferedEvents ++ [⟨.changed, uri⟩] := by
  refine ⟨rfl, ?_, ?_, ?_, ?_, rfl⟩ <;>
    simp [writeFile, handleConflict, invalidateCache, fireSoon, Cache.del]

/-- C4: a successful rename buffers exactly the pair Deleted(old),
Created(new) in that order in one `_fireSoon` call — starting from an
empty buffer, the next flush delivers them as one two-event batch — and
transfers the version token: the new path holds the returned token, the
old path's token is gone.  A missing source (404) surfaces as
`FileNotFound(old)` and a conflicting destination (409) as
`FileExists(new)`. -/
theorem rename_spec (oldUri newUri : Uri) (e : String) (s : FSState)
    (he : e ≠ "") (hk : oldUri.toKey ≠ newUri.toKey)
    (hb : s.bufferedEvents = []) :
    (rename (.ok ⟨some e⟩) oldUri newUri s).1 = .ok () ∧
    ((rename (.ok ⟨some e⟩) oldUri newUri s).2.1).bufferedEvents =
      [⟨.deleted, oldUri⟩, ⟨.created, newUri⟩] ∧
    (flushEvents ((rename (.ok ⟨some e⟩) oldUri newUri s).2.1)).delivered =
      s.delivered ++ [[⟨.deleted, oldUri⟩, ⟨.created, newUri⟩]] ∧
    ((rename (.ok ⟨some e⟩) oldUri newUri s).2.1).etagCache newUri.toKey =
      some e ∧
    ((rename (.ok ⟨some e⟩) oldUri newUri s).2.1).etagCache oldUri.toKey =
      none ∧
    (rename (.apiError 404) oldUri newUri s).1 =
      .error (.fileNotFound oldUri) ∧
    (rename (.apiError 409) oldUri newUri s).1 =
      .error (.fileExists newUri) := by
  refine ⟨rfl, ?_, ?_, ?_, ?_, rfl, rfl⟩ <;>
    simp [rename, truthy, he, invalidateCache, fireSoon, flushEvents,
      Cache.set, Cache.del, hb, Ne.symm hk]

/-- Witness for C4, the spec's example `rename("/a.txt", "/b.txt")` from
an empty state with returned token `"v2"`. -/
theorem rename_spec_witness :
    (rename (.ok ⟨some "v2"⟩) uOld uNew emptyState).1 = .ok () ∧
    ((rename (.ok ⟨some "v2"⟩) uOld uNew emptyState).2.1).bufferedEvents =
      [⟨.deleted, uOld⟩, ⟨.created, uNew⟩] ∧
    ((rename (.ok ⟨some "v2"⟩) uOld uNew emptyState).2.1).etagCache
      uNew.toKey = some "v2" ∧
    ((rename (.ok ⟨some "v2"⟩) uOld uNew emptyState).2.1).etagCache
      uOld.toKey = none := by
  have h := rename_spec uOld uNew "v2" emptyState (by decide) (by decide) rfl
  exact ⟨h.1, h.2.1, h.2.2.2.1, h.2.2.2.2.1⟩

/-- C5: with no cached version token for the path, `writeFile` — run
through the source's `vaultWrite` (which attaches an `If-Match` header
only when a token was passed) against the spec-modelled server — sends
exactly one unconditional write, `If-Match` absent, succeeds whenever the
remote parent exists, and the conflict-resolution path is never taken:
the outcome is the same for every prompt choice and every second-write
outcome. -/
theorem writeFile_no_token_unconditional (remoteEtag : Option String)
    (newEtag : String) (remote2 : ApiOutcome WriteResult)
    (choice : UserChoice) (uri : Uri) (content : String) (c : Bool)
    (s : FSState) (h : s.etagCache uri.toKey = none) :
    (writeFileModel remoteEtag true newEtag remote2 choice uri content c
      s).1 = .ok () ∧
    (writeFileModel remoteEtag true newEtag remote2 choice uri content c
        s).2.2 =
      [.writeReq (parseUri uri).projectId (parseUri uri).vaultPath content
        none] := by
  constructor <;>
    simp [writeFileModel, vaultWrite, vaultServerModel, writeFile, h]

/-- Witness for C5: writing a never-before-seen `/a/b.txt` from the empty
state succeeds with an unconditional request. -/
theorem writeFile_no_token_unconditional_witness :
    (writeFileModel none true "e9" .otherError .discardLocal uA "body" true
      emptyState).1 = .ok () ∧
    (writeFileModel none true "e9" .otherError .discardLocal uA "body" true
        emptyState).2.2 =
      [.writeReq "p1" "/a/b.txt" "body" none] := by
  have h := writeFile_no_token_unconditional none "e9" .otherError
    .discardLocal uA "body" true emptyState rfl
  refine ⟨h.1, ?_⟩
  rw [h.2]
  decide

/-- Scheduling a list of events appends them, in order, to the buffer. -/
theorem scheduleAll_buffer (es : List FileChangeEvent) (s : FSState) :
    (scheduleAll es s).bufferedEvents = s.bufferedEvents ++ es := by
  induction es generalizing s with
  | nil => simp [scheduleAll]
  | cons e rest ih =>
      show (scheduleAll rest (fireSoon [e] s)).bufferedEvents = _
      rw [ih]
      simp [fireSoon]

/-- Scheduling delivers nothing by itself. -/
theorem scheduleAll_delivered (es : List FileChangeEvent) (s : FSState) :
    (scheduleAll es s).delivered = s.delivered := by
  induction es generalizing s with
  | nil => rfl
  | cons e rest ih =>
      show (scheduleAll rest (fireSoon [e] s)).delivered = _
      rw [ih]
      rfl

/-- Scheduling at least one event leaves the debounce timer armed. -/
theorem scheduleAll_timer (es : List FileChangeEvent) (s : FSState)
    (h : es ≠ []) : (scheduleAll es s).timerPending = true := by
  induction es generalizing s with
  | nil => exact absurd rfl h
  | cons e rest ih =>
      show (scheduleAll rest (fireSoon [e] s)).timerPending = true
      rcases rest with _ | ⟨e2, rest2⟩
      · rfl
      · exact ih (fireSoon [e] s) (by simp)

/-- C6: all events scheduled before a flush are delivered at that flush as
one batch, in arrival order, with none dropped (scheduling while the
timer is pending only re-arms it, the buffer keeps accumulating); the
flush empties the buffer, so events scheduled afterwards form a second,
separate batch. -/
theorem debounce_batches (es1 es2 : List FileChangeEvent) (s : FSState)
    (hb : s.bufferedEvents = []) (h1 : es1 ≠ []) (h2 : es2 ≠ []) :
    (scheduleAll es1 s).bufferedEvents = es1 ∧
    (scheduleAll es1 s).delivered = s.delivered ∧
    (flushEvents (scheduleAll es1 s)).delivered = s.delivered ++ [es1] ∧
    (flushEvents (scheduleAll es1 s)).bufferedEvents = [] ∧
    (flushEvents (scheduleAll es2 (flushEvents (scheduleAll es1
        s)))).delivered =
      s.delivered ++ [es1] ++ [es2] := by
  have hbuf1 : (scheduleAll es1 s).bufferedEvents = es1 := by
    rw [scheduleAll_buffer, hb]; simp
  have htimer1 := scheduleAll_timer es1 s h1
  have hflush1 : flushEvents (scheduleAll es1 s) =
      { scheduleAll es1 s with
        delivered := (scheduleAll es1 s).delivered ++
          [(scheduleAll es1 s).bufferedEvents]
        bufferedEvents := []
        timerPending := false } := by
    simp [flushEvents, htimer1]
  have hbuf2 : (scheduleAll es2 (flushEvents (scheduleAll es1
      s))).bufferedEvents = es2 := by
    rw [scheduleAll_buffer, hflush1]; simp
  have htimer2 := scheduleAll_timer es2 (flushEvents (scheduleAll es1 s)) h2
  refine ⟨hbuf1, scheduleAll_delivered es1 s, ?_, ?_, ?_⟩
  · rw [hflush1]; simp [hbuf1, scheduleAll_delivered]
  · rw [hflush1]
  · rw [flushEvents, if_pos htimer2, scheduleAll_delivered, hbuf2, hflush1]
    simp [hbuf1, scheduleAll_delivered]

/-- Witness for C6, the spec's example: five events scheduled inside one
window flush as a single five-event batch; a sixth scheduled after that
flush is delivered as its own one-event batch. -/
theorem debounce_batches_witness :
    (scheduleAll [⟨.created, uA⟩, ⟨.changed, uA⟩, ⟨.changed, uC⟩,
      ⟨.deleted, uOld⟩, ⟨.created, uNew⟩] emptyState).bufferedEvents =
      [⟨.created, uA⟩, ⟨.changed, uA⟩, ⟨.changed, uC⟩, ⟨.deleted, uOld⟩,
        ⟨.created, uNew⟩] ∧
    (flushEvents (scheduleAll [⟨.changed, uC⟩] (flushEvents (scheduleAll
        [⟨.created, uA⟩, ⟨.changed, uA⟩, ⟨.changed, uC⟩, ⟨.deleted, uOld⟩,
          ⟨.created, uNew⟩] emptyState)))).delivered =
      [[⟨.created, uA⟩, ⟨.changed, uA⟩, ⟨.changed, uC⟩, ⟨.deleted, uOld⟩,
        ⟨.created, uNew⟩], [⟨.changed, uC⟩]] := by
  have h := debounce_batches
    [⟨.created, uA⟩, ⟨.changed, uA⟩, ⟨.changed, uC⟩, ⟨.deleted, uOld⟩,
      ⟨.created, uNew⟩] [⟨.changed, uC⟩] emptyState rfl (by simp) (by simp)
  exact ⟨h.1, h.2.2.2.2⟩

/-- C7: after `unmountProject` all four caches (stat, directory, content,
version-token) hold zero entries whatever they held before, the SSE
connection is closed, and a subsequently arriving remote change
notification leaves the state untouched. -/
theorem unmount_clears_all (s : FSState) (pid p a : String) :
    (∀ k, (unmountProject s).statCache k = none) ∧
    (∀ k, (unmountProject s).dirCache k = none) ∧
    (∀ k, (unmountProject s).fileCache k = none) ∧
    (∀ k, (unmountProject s).etagCache k = none) ∧
    (unmountProject s).sseConnected = false ∧
    deliverNotification pid p a (unmountProject s) = unmountProject s := by
  refine ⟨fun k => rfl, fun k => rfl, fun k => rfl, fun k => rfl, rfl, ?_⟩
  simp [deliverNotification, unmountProject, clearAllCaches]

/-- C8 counterexample: a non-404 remote failure (here a plain network
failure) on `stat` of `/a/b.txt` surfaces as `FileNotFound`, not as the
`Unavailable` the claim requires for failures other than absence. -/
theorem readops_taxonomy_counterexample :
    (stat 0 .otherError uA emptyState).1 = .error (.fileNotFound uA) ∧
    (stat 0 .otherError uA emptyState).1 ≠ .error (.unavailableUri uA) := by
  have h : (stat 0 .otherError uA emptyState).1 =
      .error (.fileNotFound uA) := rfl
  refine ⟨h, ?_⟩
  rw [h]
  simp

/-- C8 as amended: for `stat`, `readDirectory` and `readFile` (on a cache
miss, for a non-root path) every remote-call failure — absence and any
other remote or network failure alike — is mapped to `FileNotFound` at
the façade boundary; no raw transport error reaches the caller. -/
theorem readops_failure_notFound (now : Nat) (uri : Uri) (s : FSState)
    (e1 : ApiOutcome StatResponse) (e2 : ApiOutcome (List ListEntry))
    (e3 : ApiOutcome ReadResult) (h1 : e1.isFailure = true)
    (h2 : e2.isFailure = true) (h3 : e3.isFailure = true)
    (hs : s.statCache uri.toKey = none) (hd : s.dirCache uri.toKey = none)
    (hf : s.fileCache uri.toKey = none)
    (hroot : ¬((parseUri uri).vaultPath = "/" ∨
      (parseUri uri).vaultPath = "")) :
    (stat now e1 uri s).1 = .error (.fileNotFound uri) ∧
    (readDirectory now e2 uri s).1 = .error (.fileNotFound uri) ∧
    (readFile e3 uri s).1 = .error (.fileNotFound uri) := by
  refine ⟨?_, ?_, ?_⟩
  · cases e1 <;> simp_all [stat, statFetch, ApiOutcome.isFailure]
  · cases e2 <;>
      simp_all [readDirectory, readDirectoryFetch, ApiOutcome.isFailure]
  · cases e3 <;> simp_all [readFile, ApiOutcome.isFailure]

/-- Witness for the amended C8 at a concrete input: network failures on
all three read operations for `/a/b.txt` from the empty state. -/
theorem readops_failure_notFound_witness :
    (stat 7 .otherError uA emptyState).1 = .error (.fileNotFound uA) ∧
    (readDirectory 7 .otherError uA emptyState).1 =
      .error (.fileNotFound uA) ∧
    (readFile .otherError uA emptyState).1 = .error (.fileNotFound uA) :=
  readops_failure_notFound 7 uA emptyState .otherError .otherError
    .otherError rfl rfl rfl rfl rfl rfl (by decide)

/-- C9: for a uri whose vault path resolves to `"/"` or `""`, `stat`
issues no remote request, and on a stat-cache miss it returns the
synthetic always-fresh directory stat (`mtime = now`, no permission
flag). -/
theorem stat_root_synthetic (now : Nat) (remote : ApiOutcome StatResponse)
    (uri : Uri) (s : FSState)
    (hroot : (parseUri uri).vaultPath = "/" ∨
      (parseUri uri).vaultPath = "") :
    (stat now remote uri s).2.2 = [] ∧
    (s.statCache uri.toKey = none →
      (stat now remote uri s).1 =
        .ok { type := .directory, ctime := 0, mtime := now, size := 0,
              permissions := none }) := by
  constructor
  · unfold stat statFetch
    rcases hc : s.statCache uri.toKey with _ | c
    · simp [hc, hroot]
    · by_cases ht : now < c.expires <;> simp [hc, ht, hroot]
  · intro hnone
    unfold stat statFetch
    rw [hnone]
    simp [hroot]

/-- Witness for C9: the mount-root uri (vault path `/`) from the empty
state at time 42. -/
theorem stat_root_synthetic_witness :
    (stat 42 .otherError uRoot emptyState).2.2 = [] ∧
    (stat 42 .otherError uRoot emptyState).1 =
      .ok { type := .directory, ctime := 0, mtime := 42, size := 0,
            permissions := none } := by
  have h := stat_root_synthetic 42 .otherError uRoot emptyState (by decide)
  exact ⟨h.1, h.2 rfl⟩

/-- C10: every stat fetched from the remote vault carries the read-only
permission flag, for directories exactly as for files (the response's
`is_directory` is arbitrary here); only the synthetic root stat omits the
flag — even though `writeFile` is an implemented, succeeding write
operation on the same façade. -/
theorem stat_readonly_flag (now : Nat) (resp : StatResponse)
    (uri uriR : Uri) (s sR : FSState) (remote2 : ApiOutcome WriteResult)
    (choice : UserChoice) (content : String) (c : Bool) (wr : WriteResult)
    (hroot : ¬((parseUri uri).vaultPath = "/" ∨
      (parseUri uri).vaultPath = ""))
    (hmiss : s.statCache uri.toKey = none)
    (hR : (parseUri uriR).vaultPath = "/" ∨ (parseUri uriR).vaultPath = "")
    (hRmiss : sR.statCache uriR.toKey = none) :
    (stat now (.ok resp) uri s).1 =
      .ok { type := if resp.is_directory then .directory else .file,
            ctime := resp.created_at_ms, mtime := resp.modified_at_ms,
            size := resp.size_bytes, permissions := some .readonly } ∧
    (stat now (.ok resp) uriR sR).1 =
      .ok { type := .directory, ctime := 0, mtime := now, size := 0,
            permissions := none } ∧
    (writeFile (.ok wr) remote2 choice uri content c s).1 = .ok () := by
  refine ⟨?_, ?_, rfl⟩
  · unfold stat statFetch
    rw [hmiss]
    simp [hroot]
  · unfold stat statFetch
    rw [hRmiss]
    simp [hR]

/-- Witness for C10: a remote *directory* stat for `/a/b.txt` still
carries the read-only flag, the synthetic root stat does not, and a write
to the same path succeeds. -/
theorem stat_readonly_flag_witness :
    (stat 9 (.ok ⟨true, 1, 2, 3⟩) uA emptyState).1 =
      .ok { type := .directory, ctime := 1, mtime := 2, size := 3,
            permissions := some .readonly } ∧
    (stat 9 (.ok ⟨true, 1, 2, 3⟩) uRoot emptyState).1 =
      .ok { type := .directory, ctime := 0, mtime := 9, size := 0,
            permissions := none } ∧
    (writeFile (.ok ⟨"e1"⟩) .otherError .dismissed uA "body" false
      emptyState).1 = .ok () := by
  have h := stat_readonly_flag 9 ⟨true, 1, 2, 3⟩ uA uRoot emptyState
    emptyState .otherError .dismissed "body" false ⟨"e1"⟩ (by decide) rfl
    (by decide) rfl
  exact ⟨h.1, h.2.1, h.2.2⟩

end DevVault
